import Mathlib

/-!
Verification of `makofind` (src/src/makofind.c), a streaming filesystem
tree walker built on nftw(3C).  The C program's visitor callback
(`nftw_cb`), warner (`nftw_warn`) and root-iteration loop (`main`) are
embedded as pure Lean functions; the traversal performed by the external
library call `nftw(3C)` (with the flags `FTW_PHYS | FTW_MOUNT` as set in
`main`) is modelled from its documented semantics and the specification.
Process-global effects are threaded explicitly: standard-output lines,
diagnostic (stderr) lines, and the global `error` flag form a `WalkState`.
-/

namespace Makofind

/-- Stat snapshot of a filesystem object: logical size in bytes,
allocated 512-byte block count (`st_blocks`), and modification time as
seconds plus nanoseconds (`st_mtim`).  The reachable values of those
fields are non-negative, so they are modelled as `Nat`. -/
structure StatInfo where
  size : Nat
  blocks : Nat
  sec : Nat
  nsec : Nat
deriving DecidableEq, Repr

/-- Object classification passed by nftw(3C) to the callback: `F`
(regular file), `D` (directory), `SL` (symbolic link), `DNR` (unreadable
directory), `NS` (stat failure), or any other integer value (`other`). -/
inductive ObjType where
  | F
  | D
  | SL
  | DNR
  | NS
  | other (n : Nat)
deriving DecidableEq, Repr

/-- Process-global state threaded through the program: manifest lines
written to standard output, diagnostic lines written to standard error,
and the global `error` flag of makofind.c (`static int error`). -/
structure WalkState where
  output : List String
  diags : List String
  errSet : Bool
deriving DecidableEq, Repr

mutual
/-- A filesystem object as seen by the traversal.  Every object carries
its device identifier (`st_dev`).  A symbolic link carries the object its
target resolves to, so that never-dereferencing is a provable property
rather than a vacuous one.  `dnr` is an unreadable directory, `ns` an
entry whose stat failed, `unknown` an object of unrecognized kind. -/
inductive FSObj where
  | file (dev : Nat) (size : Nat) (blocks : Nat) (sec : Nat) (nsec : Nat)
  | dir (dev : Nat) (entries : FSEntries)
  | symlink (dev : Nat) (target : FSObj)
  | dnr (dev : Nat)
  | ns (dev : Nat)
  | unknown (dev : Nat) (objtype : Nat)

/-- Named directory entries, in the (unspecified) enumeration order the
operating system yields them. -/
inductive FSEntries where
  | nil
  | cons (name : String) (obj : FSObj) (rest : FSEntries)
end

/-- Device identifier (`st_dev`) of an object. -/
def FSObj.dev : FSObj → Nat
  | .file d _ _ _ _ => d
  | .dir d _ => d
  | .symlink d _ => d
  | .dnr d => d
  | .ns d => d
  | .unknown d _ => d

/-- The stat snapshot nftw passes for an object (meaningful for regular
files; the callback ignores it for the other kinds). -/
def FSObj.statOf : FSObj → StatInfo
  | .file _ sz b sec nsv => ⟨sz, b, sec, nsv⟩
  | _ => ⟨0, 0, 0, 0⟩

/-- The `objtype` classification nftw passes to the callback. -/
def FSObj.classify : FSObj → ObjType
  | .file _ _ _ _ _ => .F
  | .dir _ _ => .D
  | .symlink _ _ => .SL
  | .dnr _ => .DNR
  | .ns _ => .NS
  | .unknown _ n => .other n

/-- `%09ld`: decimal rendering of `n` zero-padded on the left to a
minimum width of nine characters (wider values are not truncated). -/
def pad9 (n : Nat) : String :=
  let s := toString n
  String.mk (List.replicate (9 - s.length) '0') ++ s

/-- Timestamp rendering from makofind.c line 124:
`%ld.%09ld0` — seconds, a dot, nanoseconds zero-padded to nine digits,
and one literal trailing zero character (GNU find compatibility). -/
def formatMtime (sec nsec : Nat) : String :=
  toString sec ++ "." ++ pad9 nsec ++ "0"

/-- `logical = (st->st_blocks / 2) + (st->st_blocks % 2)` from
makofind.c line 114: the physical size in 1-kilobyte units computed from
the 512-byte allocated block count. -/
def physicalSize (blocks : Nat) : Nat :=
  blocks / 2 + blocks % 2

/-- The manifest line printed for a regular file, makofind.c lines
124-125: `printf("%s\t%ld\t%ld.%09ld0\t%ld\n", path, st->st_size,
st->st_mtim.tv_sec, st->st_mtim.tv_nsec, logical)`. -/
def manifestLine (path : String) (st : StatInfo) : String :=
  path ++ "\t" ++ toString st.size ++ "\t" ++ formatMtime st.sec st.nsec
    ++ "\t" ++ toString (physicalSize st.blocks) ++ "\n"

/-- `nftw_warn` from makofind.c lines 94-104: report a diagnostic on
standard error and set the global `error` flag. -/
def nftw_warn (s : WalkState) (msg : String) : WalkState :=
  { s with diags := s.diags ++ [msg], errSet := true }

/-- The visitor callback `nftw_cb` from makofind.c lines 106-162,
translated case by case from the `switch (objtype)`.  `emitOk` models
whether the `printf` to standard output succeeds (returns `≥ 0`); the
returned `Nat` is the callback's return value (`ret`), which nftw(3C)
propagates: nonzero stops the walk. -/
def nftw_cb (s : WalkState) (path : String) (st : StatInfo)
    (objtype : ObjType) (emitOk : Bool) : WalkState × Nat :=
  match objtype with
  | .F =>
      if emitOk then
        ({ s with output := s.output ++ [manifestLine path st] }, 0)
      else
        (nftw_warn s ("Failed to print information for: " ++ path), 1)
  | .D => (s, 0)
  | .SL => (s, 0)
  | .DNR => (nftw_warn s ("Unable to read directory: " ++ path), 0)
  | .NS => (nftw_warn s ("stat failed at " ++ path), 0)
  | .other n =>
      (nftw_warn s (path ++ ": unknown type (" ++ toString n ++ ")"), 1)

mutual
/-- Modelled from the spec: the traversal `nftw(root, nftw_cb,
MAX_DESCRIPTORS, FTW_PHYS | FTW_MOUNT)` performs over one object — the
library code itself is external, not in src/.  Physical (`FTW_PHYS`):
symbolic links are reported as such and never followed into their
target.  Mount-confined (`FTW_MOUNT`): an entry whose device identifier
differs from the root's is excluded from the traversal entirely.
Preorder depth-first: a directory is reported before its entries.  A
nonzero callback return value stops the walk and becomes nftw's return
value. -/
def walkObj (rootDev : Nat) (emitOk : Bool) (path : String)
    (obj : FSObj) (s : WalkState) : WalkState × Nat :=
  if obj.dev ≠ rootDev then (s, 0)
  else
    let r := nftw_cb s path obj.statOf obj.classify emitOk
    if r.2 ≠ 0 then r
    else
      match obj with
      | .dir _ entries => walkEntries rootDev emitOk path entries r.1
      | _ => r

/-- Modelled from the spec: traversal of the named entries of a
directory, in order, stopping as soon as a callback return propagates a
nonzero value. -/
def walkEntries (rootDev : Nat) (emitOk : Bool) (path : String)
    (es : FSEntries) (s : WalkState) : WalkState × Nat :=
  match es with
  | .nil => (s, 0)
  | .cons name obj rest =>
      let r := walkObj rootDev emitOk (path ++ "/" ++ name) obj s
      if r.2 ≠ 0 then r
      else walkEntries rootDev emitOk path rest r.1
end

/-- What `nftw` does for one root path: either it fails at the operating
system level (`bad`, nftw returns -1: root missing, unopenable, ...) or
it walks the given tree (`ok`), the root's device identifier being
established from the tree's root object. -/
inductive RootSpec where
  | bad
  | ok (tree : FSObj)

/-- One caller-supplied root argument. -/
structure Root where
  path : String
  spec : RootSpec

/-- Result of running the program: standard-output lines, diagnostic
lines, and the exit status. -/
structure MainResult where
  output : List String
  diags : List String
  exit : Nat
deriving DecidableEq, Repr

/-- The root-iteration loop of `main`, makofind.c lines 74-89: call
nftw on each root in order; on -1, `warn` with the root's path and set
`error = 1`, then continue; on 1 (callback-signalled abort), `break`.
The final exit status is the global `error` flag (line 91). -/
def runRoots (emitOk : Bool) : List Root → WalkState → MainResult
  | [], s => ⟨s.output, s.diags, if s.errSet then 1 else 0⟩
  | r :: rest, s =>
      match r.spec with
      | .bad =>
          runRoots emitOk rest
            { s with
                diags := s.diags ++ ["An error occured traversing " ++ r.path],
                errSet := true }
      | .ok tree =>
          let w := walkObj tree.dev emitOk r.path tree s
          if w.2 = 1 then ⟨w.1.output, w.1.diags, if w.1.errSet then 1 else 0⟩
          else runRoots emitOk rest w.1

/-- `main` from makofind.c lines 57-92: with no directory arguments,
print a usage message to standard error and exit 1 without traversing
anything; otherwise run the root loop and exit with the `error` flag. -/
def main_fn (roots : List Root) (emitOk : Bool) : MainResult :=
  match roots with
  | [] => ⟨[], ["usage: makofind dir1 dir2 ... dirN"], 1⟩
  | _ :: _ => runRoots emitOk roots ⟨[], [], false⟩

/-- `s'` extends `s`: it appends some output lines and diagnostic lines
and possibly raises (never clears) the error flag, the flag being raised
exactly when at least one diagnostic was appended. -/
def Extends (s s' : WalkState) : Prop :=
  ∃ out d b, s' = ⟨s.output ++ out, s.diags ++ d, s.errSet || b⟩ ∧
    (b = true ↔ d ≠ [])

/-- Invariant of the global state: the error flag is set exactly when
some diagnostic has been reported. -/
def ErrIffDiags (s : WalkState) : Prop :=
  s.errSet = true ↔ s.diags ≠ []

theorem extends_self (s : WalkState) : Extends s s :=
  ⟨[], [], false, by simp, by simp⟩

theorem extends_warn (s : WalkState) (m : String) :
    Extends s (nftw_warn s m) :=
  ⟨[], [m], true, by simp [nftw_warn], by simp⟩

theorem extends_out (s : WalkState) (l : String) :
    Extends s { s with output := s.output ++ [l] } :=
  ⟨[l], [], false, by simp, by simp⟩

theorem extends_trans {s s' s'' : WalkState} (h : Extends s s')
    (h' : Extends s' s'') : Extends s s'' := by
  obtain ⟨o1, d1, b1, he1, hb1⟩ := h
  obtain ⟨o2, d2, b2, he2, hb2⟩ := h'
  refine ⟨o1 ++ o2, d1 ++ d2, b1 || b2, ?_, ?_⟩
  · subst he1; simp [he2, List.append_assoc, Bool.or_assoc]
  · subst he1
    simp only [Bool.or_eq_true, hb1, hb2, ne_eq, List.append_eq_nil]
    tauto

theorem extends_errSet_mono {s s' : WalkState} (h : Extends s s')
    (hs : s.errSet = true) : s'.errSet = true := by
  obtain ⟨o, d, b, he, _⟩ := h
  simp [he, hs]

theorem extends_inv {s s' : WalkState} (h : Extends s s')
    (hs : ErrIffDiags s) : ErrIffDiags s' := by
  obtain ⟨o, d, b, he, hb⟩ := h
  unfold ErrIffDiags at hs ⊢
  simp only [he, Bool.or_eq_true, hs, hb, ne_eq, List.append_eq_nil]
  tauto

theorem nftw_cb_spec (s : WalkState) (path : String) (st : StatInfo)
    (ot : ObjType) (e : Bool) :
    Extends s (nftw_cb s path st ot e).1 ∧
      ((nftw_cb s path st ot e).2 ≠ 0 →
        (nftw_cb s path st ot e).1.errSet = true) := by
  cases ot with
  | F =>
      cases e with
      | true => exact ⟨extends_out s _, by simp [nftw_cb]⟩
      | false => exact ⟨extends_warn s _, by simp [nftw_cb, nftw_warn]⟩
  | D => exact ⟨extends_self s, by simp [nftw_cb]⟩
  | SL => exact ⟨extends_self s, by simp [nftw_cb]⟩
  | DNR => exact ⟨extends_warn s _, by simp [nftw_cb]⟩
  | NS => exact ⟨extends_warn s _, by simp [nftw_cb]⟩
  | other n => exact ⟨extends_warn s _, by simp [nftw_cb, nftw_warn]⟩

mutual
theorem walkObj_spec (rd : Nat) (e : Bool) (p : String) (obj : FSObj)
    (s : WalkState) :
    Extends s (walkObj rd e p obj s).1 ∧
      ((walkObj rd e p obj s).2 ≠ 0 →
        (walkObj rd e p obj s).1.errSet = true) := by
  rw [walkObj]
  by_cases hdev : obj.dev ≠ rd
  · rw [if_pos hdev]
    exact ⟨extends_self s, by simp⟩
  · rw [if_neg hdev]
    have hcb := nftw_cb_spec s p obj.statOf obj.classify e
    by_cases hret : (nftw_cb s p obj.statOf obj.classify e).2 ≠ 0
    · rw [if_pos hret]
      exact hcb
    · rw [if_neg hret]
      cases obj with
      | dir d entries =>
          have hrec := walkEntries_spec rd e p entries
            (nftw_cb s p (FSObj.dir d entries).statOf
              (FSObj.dir d entries).classify e).1
          exact ⟨extends_trans hcb.1 hrec.1, hrec.2⟩
      | file d sz b sec nsv => exact hcb
      | symlink d t => exact hcb
      | dnr d => exact hcb
      | ns d => exact hcb
      | unknown d n => exact hcb

theorem walkEntries_spec (rd : Nat) (e : Bool) (p : String)
    (es : FSEntries) (s : WalkState) :
    Extends s (walkEntries rd e p es s).1 ∧
      ((walkEntries rd e p es s).2 ≠ 0 →
        (walkEntries rd e p es s).1.errSet = true) := by
  cases es with
  | nil =>
      rw [walkEntries]
      exact ⟨extends_self s, by simp⟩
  | cons name obj rest =>
      rw [walkEntries]
      have hw := walkObj_spec rd e (p ++ "/" ++ name) obj s
      by_cases hret : (walkObj rd e (p ++ "/" ++ name) obj s).2 ≠ 0
      · rw [if_pos hret]
        exact hw
      · rw [if_neg hret]
        have hrec := walkEntries_spec rd e p rest
          (walkObj rd e (p ++ "/" ++ name) obj s).1
        exact ⟨extends_trans hw.1 hrec.1, hrec.2⟩
end

theorem exit_record_iff (s : WalkState) (hs : ErrIffDiags s) :
    ((if s.errSet then (1 : Nat) else 0) = 0 ↔ s.diags = []) := by
  cases h : s.errSet with
  | true =>
      have hd := hs.mp h
      simp [h, hd]
  | false =>
      have hd : s.diags = [] := by
        cases hne : s.diags with
        | nil => rfl
        | cons a l =>
            have := hs.mpr (by simp [hne])
            rw [h] at this
            exact absurd this (by simp)
      simp [h, hd]

theorem runRoots_exit_iff (e : Bool) (roots : List Root) (s : WalkState)
    (hs : ErrIffDiags s) :
    ((runRoots e roots s).exit = 0 ↔ (runRoots e roots s).diags = []) := by
  induction roots generalizing s with
  | nil =>
      simp only [runRoots]
      exact exit_record_iff s hs
  | cons r rest ih =>
      obtain ⟨p, spec⟩ := r
      cases spec with
      | bad =>
          simp only [runRoots]
          refine ih _ ?_
          unfold ErrIffDiags at hs ⊢
          simp
      | ok tree =>
          have hw := walkObj_spec tree.dev e p tree s
          have hinv := extends_inv hw.1 hs
          simp only [runRoots]
          by_cases h1 : (walkObj tree.dev e p tree s).2 = 1
          · rw [if_pos h1]
            exact exit_record_iff (walkObj tree.dev e p tree s).1 hinv
          · rw [if_neg h1]
            exact ih _ hinv

/-- C9: when `makofind` is invoked with zero root-path arguments it
prints only a usage diagnostic, produces no manifest output, attempts no
traversal, and exits with status 1 (non-zero). -/
theorem claim_C9 (e : Bool) :
    main_fn [] e = ⟨[], ["usage: makofind dir1 dir2 ... dirN"], 1⟩ ∧
      (main_fn [] e).output = [] ∧ (main_fn [] e).exit ≠ 0 :=
  ⟨rfl, rfl, one_ne_zero⟩

/-- C3: for every regular file visited (with a writable output channel),
the emitted record is the manifest line whose physical-size field is
computed by `physicalSize`, and `physicalSize blocks` equals `blocks / 2`
when `blocks` is even and `blocks / 2 + 1` when `blocks` is odd. -/
theorem claim_C3 (s : WalkState) (path : String) (st : StatInfo) :
    (nftw_cb s path st .F true).1.output = s.output ++ [manifestLine path st] ∧
      (st.blocks % 2 = 0 → physicalSize st.blocks = st.blocks / 2) ∧
      (st.blocks % 2 = 1 → physicalSize st.blocks = st.blocks / 2 + 1) := by
  refine ⟨rfl, ?_, ?_⟩ <;> intro h <;> simp [physicalSize, h]

/-- Witness for C3 at blocks = 4 (even) and blocks = 5 (odd). -/
theorem claim_C3_witness :
    physicalSize 4 = 4 / 2 ∧ physicalSize 5 = 5 / 2 + 1 :=
  ⟨(claim_C3 ⟨[], [], false⟩ "p" ⟨0, 4, 0, 0⟩).2.1 (by decide),
   (claim_C3 ⟨[], [], false⟩ "p" ⟨0, 5, 0, 0⟩).2.2 (by decide)⟩

theorem pad9_length (n : Nat) (h : n < 1000000000) : (pad9 n).length = 9 := by
  have hle : (Nat.repr n).length ≤ 9 :=
    Nat.repr_length n 9 (by norm_num) (by norm_num; omega)
  have hts : toString n = Nat.repr n := rfl
  unfold pad9
  rw [hts, String.length_append, String.length_mk]
  simp only [List.length_replicate]
  omega

/-- C4: for every regular file (with writable output and the kernel
invariant `tv_nsec < 10^9`), the manifest line is path, logical size in
bytes, timestamp, and physical size, tab-separated and newline
terminated; the timestamp is the seconds value, a dot, the nanoseconds
value zero-padded to 9 digits, and one literal trailing zero; the
nanosecond field is exactly 9 characters wide, and the claim's example
seconds = 1700000000, nanoseconds = 123456789 renders as
`1700000000.1234567890`. -/
theorem claim_C4 (s : WalkState) (path : String) (st : StatInfo)
    (h : st.nsec < 1000000000) :
    nftw_cb s path st .F true =
      ({ s with output := s.output ++
          [path ++ "\t" ++ toString st.size ++ "\t"
            ++ (toString st.sec ++ "." ++ pad9 st.nsec ++ "0") ++ "\t"
            ++ toString (physicalSize st.blocks) ++ "\n"] }, 0) ∧
      (pad9 st.nsec).length = 9 ∧
      formatMtime 1700000000 123456789 = "1700000000.1234567890" :=
  ⟨rfl, pad9_length st.nsec h, by decide⟩

/-- Witness for C4 at the claim's own example values. -/
theorem claim_C4_witness :
    nftw_cb ⟨[], [], false⟩ "/manta/acct-1/obj-42"
        ⟨1048576, 2049, 1700000000, 123456789⟩ .F true =
      (⟨["/manta/acct-1/obj-42" ++ "\t" ++ toString 1048576 ++ "\t"
          ++ (toString 1700000000 ++ "." ++ pad9 123456789 ++ "0") ++ "\t"
          ++ toString (physicalSize 2049) ++ "\n"], [], false⟩, 0) ∧
      (pad9 123456789).length = 9 :=
  ⟨((claim_C4 ⟨[], [], false⟩ "/manta/acct-1/obj-42"
      ⟨1048576, 2049, 1700000000, 123456789⟩ (by decide)).1),
   ((claim_C4 ⟨[], [], false⟩ "/manta/acct-1/obj-42"
      ⟨1048576, 2049, 1700000000, 123456789⟩ (by decide)).2.1)⟩

/-- C2 as stated is false: when the manifest `printf` for a regular file
fails, `nftw_cb` returns 1 (abort), not 0; at this concrete two-file
directory the second file is never visited — its diagnostic is absent —
so traversal of the rest of the tree does not continue. -/
theorem claim_C2_counterexample :
    (nftw_cb ⟨[], [], false⟩ "/r/f" ⟨10, 4, 1, 2⟩ .F false).2 = 1 ∧
      walkEntries 0 false "/r"
        (.cons "f1" (.file 0 10 4 1 2) (.cons "f2" (.file 0 20 4 3 4) .nil))
        ⟨[], [], false⟩
        = (⟨[], ["Failed to print information for: /r/f1"], true⟩, 1) := by
  decide

/-- C2 amended: when manifest-record emission fails for a regular file,
the visitor emits no record, reports the failure naming the path, sets
the failure flag, and returns abort = 1 (true), so the record is lost
and the walk of this root stops (and, via the break in `main`, the
remaining roots are skipped too). -/
theorem claim_C2 (s : WalkState) (path : String) (st : StatInfo) :
    nftw_cb s path st .F false =
      (nftw_warn s ("Failed to print information for: " ++ path), 1) ∧
      (nftw_cb s path st .F false).1.output = s.output ∧
      (nftw_cb s path st .F false).1.diags
        = s.diags ++ ["Failed to print information for: " ++ path] ∧
      (nftw_cb s path st .F false).1.errSet = true :=
  ⟨rfl, rfl, rfl, rfl⟩

theorem walkObj_unknown (rd : Nat) (e : Bool) (p : String) (n : Nat)
    (s : WalkState) :
    walkObj rd e p (FSObj.unknown rd n) s =
      (nftw_warn s (p ++ ": unknown type (" ++ toString n ++ ")"), 1) := by
  rw [walkObj]
  rw [if_neg (by simp [FSObj.dev])]
  rfl

theorem walkObj_dnr (rd : Nat) (e : Bool) (p : String) (s : WalkState) :
    walkObj rd e p (FSObj.dnr rd) s =
      (nftw_warn s ("Unable to read directory: " ++ p), 0) := by
  rw [walkObj]
  rw [if_neg (by simp [FSObj.dev])]
  rfl

theorem walkObj_ns (rd : Nat) (e : Bool) (p : String) (s : WalkState) :
    walkObj rd e p (FSObj.ns rd) s =
      (nftw_warn s ("stat failed at " ++ p), 0) := by
  rw [walkObj]
  rw [if_neg (by simp [FSObj.dev])]
  rfl

/-- C5: on an object of unrecognized kind the visitor emits no manifest
record, reports an "unknown type" diagnostic naming the path, sets the
process-wide failure flag, and returns 1 (abort); consequently the walk
of the current root stops there — the remaining entries `rest` are never
visited. -/
theorem claim_C5 :
    (∀ (s : WalkState) (path : String) (st : StatInfo) (n : Nat) (e : Bool),
      nftw_cb s path st (.other n) e =
          (nftw_warn s (path ++ ": unknown type (" ++ toString n ++ ")"), 1) ∧
        (nftw_cb s path st (.other n) e).1.output = s.output ∧
        (nftw_cb s path st (.other n) e).1.errSet = true) ∧
    (∀ (rd : Nat) (e : Bool) (p name : String) (n : Nat) (rest : FSEntries)
        (s : WalkState),
      walkEntries rd e p (.cons name (.unknown rd n) rest) s =
        (nftw_warn s
          ((p ++ "/" ++ name) ++ ": unknown type (" ++ toString n ++ ")"), 1)) := by
  constructor
  · intro s path st n e
    exact ⟨rfl, rfl, rfl⟩
  · intro rd e p name n rest s
    rw [walkEntries]
    rw [walkObj_unknown rd e (p ++ "/" ++ name) n s]
    rfl

/-- C6: on an unreadable directory or a stat-failure entry the visitor
emits no manifest record, reports the corresponding diagnostic naming
the path, sets the failure flag, and returns 0, so the walk continues
with the remaining entries `rest`. -/
theorem claim_C6 :
    (∀ (s : WalkState) (path : String) (st : StatInfo) (e : Bool),
      nftw_cb s path st .DNR e =
          (nftw_warn s ("Unable to read directory: " ++ path), 0) ∧
        nftw_cb s path st .NS e =
          (nftw_warn s ("stat failed at " ++ path), 0) ∧
        (nftw_warn s ("Unable to read directory: " ++ path)).output = s.output ∧
        (nftw_warn s ("stat failed at " ++ path)).output = s.output ∧
        (nftw_warn s ("stat failed at " ++ path)).errSet = true) ∧
    (∀ (rd : Nat) (e : Bool) (p name : String) (rest : FSEntries)
        (s : WalkState),
      walkEntries rd e p (.cons name (.dnr rd) rest) s =
          walkEntries rd e p rest
            (nftw_warn s ("Unable to read directory: " ++ (p ++ "/" ++ name))) ∧
        walkEntries rd e p (.cons name (.ns rd) rest) s =
          walkEntries rd e p rest
            (nftw_warn s ("stat failed at " ++ (p ++ "/" ++ name)))) := by
  constructor
  · intro s path st e
    exact ⟨rfl, rfl, rfl, rfl, rfl⟩
  · intro rd e p name rest s
    constructor
    · rw [walkEntries]
      rw [walkObj_dnr rd e (p ++ "/" ++ name) s]
      rfl
    · rw [walkEntries]
      rw [walkObj_ns rd e (p ++ "/" ++ name) s]
      rfl

theorem runRoots_err_exit (e : Bool) (roots : List Root) (s : WalkState)
    (h : s.errSet = true) : (runRoots e roots s).exit = 1 := by
  induction roots generalizing s with
  | nil =>
      simp only [runRoots]
      simp [h]
  | cons r rest ih =>
      obtain ⟨p, spec⟩ := r
      cases spec with
      | bad =>
          simp only [runRoots]
          exact ih _ (by simp)
      | ok tree =>
          simp only [runRoots]
          have hw := extends_errSet_mono (walkObj_spec tree.dev e p tree s).1 h
          by_cases h1 : (walkObj tree.dev e p tree s).2 = 1
          · rw [if_pos h1]
            simp [hw]
          · rw [if_neg h1]
            exact ih _ hw

/-- C7: the failure flag is monotone — once set it is never cleared by
any traversal step, and a set flag forces exit status 1 however many
roots remain — and the program's exit status is 0 exactly when no error
of any kind was reported (each per-entry error, abort, and failed root
reports a diagnostic and sets the flag, and nothing else does). -/
theorem claim_C7 :
    (∀ (rd : Nat) (e : Bool) (p : String) (obj : FSObj) (s : WalkState),
      s.errSet = true → ((walkObj rd e p obj s).1).errSet = true) ∧
    (∀ (e : Bool) (roots : List Root) (s : WalkState),
      s.errSet = true → (runRoots e roots s).exit = 1) ∧
    (∀ (roots : List Root) (e : Bool),
      (main_fn roots e).exit = 0 ↔ (main_fn roots e).diags = []) := by
  refine ⟨?_, ?_, ?_⟩
  · intro rd e p obj s h
    exact extends_errSet_mono (walkObj_spec rd e p obj s).1 h
  · intro e roots s h
    exact runRoots_err_exit e roots s h
  · intro roots e
    cases roots with
    | nil => simp [main_fn]
    | cons r rest =>
        simp only [main_fn]
        refine runRoots_exit_iff e (r :: rest) ⟨[], [], false⟩ ?_
        unfold ErrIffDiags
        simp

/-- Witness for C7: the flag stays set across a concrete walk and forces
a nonzero exit, and a clean one-file run exits 0 with no diagnostics. -/
theorem claim_C7_witness :
    ((walkObj 0 true "/r" (FSObj.file 0 1 2 3 4) ⟨[], [], true⟩).1).errSet
        = true ∧
      (runRoots true [⟨"/q", RootSpec.bad⟩] ⟨[], [], true⟩).exit = 1 ∧
      ((main_fn [⟨"/r", RootSpec.ok (FSObj.file 0 1 2 3 4)⟩] true).exit = 0 ↔
        (main_fn [⟨"/r", RootSpec.ok (FSObj.file 0 1 2 3 4)⟩] true).diags
          = []) :=
  ⟨claim_C7.1 0 true "/r" (FSObj.file 0 1 2 3 4) ⟨[], [], true⟩ rfl,
   claim_C7.2.1 true [⟨"/q", RootSpec.bad⟩] ⟨[], [], true⟩ rfl,
   claim_C7.2.2 [⟨"/r", RootSpec.ok (FSObj.file 0 1 2 3 4)⟩] true⟩

/-- C8: a symbolic link is never dereferenced or traversed into and
produces no manifest record — the walk leaves the state unchanged
whatever tree its target resolves to — and any object whose device
identifier differs from the root's is excluded from the traversal
outright, so nothing reachable only through a symlink or across a mount
boundary appears in the manifest. -/
theorem claim_C8 :
    (∀ (rd : Nat) (e : Bool) (p : String) (d : Nat) (target : FSObj)
        (s : WalkState),
      walkObj rd e p (FSObj.symlink d target) s = (s, 0)) ∧
    (∀ (rd : Nat) (e : Bool) (p : String) (obj : FSObj) (s : WalkState),
      obj.dev ≠ rd → walkObj rd e p obj s = (s, 0)) := by
  constructor
  · intro rd e p d target s
    rw [walkObj]
    by_cases h : (FSObj.symlink d target).dev ≠ rd
    · rw [if_pos h]
    · rw [if_neg h]
      rfl
  · intro rd e p obj s h
    rw [walkObj]
    rw [if_pos h]

/-- Witness for C8: a symlink whose target is a regular file on the same
device emits nothing, and a directory on another device (a mount point
containing a file) is skipped entirely. -/
theorem claim_C8_witness :
    walkObj 0 true "/a/link" (FSObj.symlink 0 (FSObj.file 0 9 4 1 2))
        ⟨[], [], false⟩ = (⟨[], [], false⟩, 0) ∧
      walkObj 0 true "/a/b"
        (FSObj.dir 2 (.cons "f" (.file 2 9 4 1 2) .nil)) ⟨[], [], false⟩
        = (⟨[], [], false⟩, 0) :=
  ⟨claim_C8.1 0 true "/a/link" 0 (FSObj.file 0 9 4 1 2) ⟨[], [], false⟩,
   claim_C8.2 0 true "/a/b" (FSObj.dir 2 (.cons "f" (.file 2 9 4 1 2) .nil))
     ⟨[], [], false⟩ (by decide)⟩

/-- C1 as stated is false: with roots `/r1` (containing an object of
unrecognized kind, which escalates to an abort) and `/r2` (containing a
valid regular file), the program's entire result is `/r1`'s diagnostic —
the manifest is empty and no diagnostic or record from `/r2` exists, so
`/r2` was never attempted, contrary to the claim that its valid entries
appear in the manifest. -/
theorem claim_C1_counterexample :
    main_fn
        [⟨"/r1", RootSpec.ok (FSObj.dir 0 (.cons "w" (.unknown 0 7) .nil))⟩,
         ⟨"/r2", RootSpec.ok (FSObj.dir 0 (.cons "f" (.file 0 10 4 1 2) .nil))⟩]
        true
      = ⟨[], ["/r1/w: unknown type (7)"], 1⟩ := by
  decide

/-- C1 amended: when traversal of the first root aborts (the walk
returns 1, e.g. on an object of unrecognized kind), that root's
traversal stops immediately and the exit status is non-zero, but the
remaining roots are NOT attempted: `main` breaks out of the root loop,
and the program's result consists exactly of what the first root
produced, whatever roots follow. -/
theorem claim_C1 (e : Bool) (p1 : String) (t : FSObj) (rest : List Root)
    (h : (walkObj t.dev e p1 t ⟨[], [], false⟩).2 = 1) :
    main_fn (⟨p1, RootSpec.ok t⟩ :: rest) e =
      ⟨(walkObj t.dev e p1 t ⟨[], [], false⟩).1.output,
       (walkObj t.dev e p1 t ⟨[], [], false⟩).1.diags, 1⟩ := by
  have herr : (walkObj t.dev e p1 t ⟨[], [], false⟩).1.errSet = true :=
    (walkObj_spec t.dev e p1 t ⟨[], [], false⟩).2 (by rw [h]; exact one_ne_zero)
  simp [main_fn, runRoots, h, herr]

/-- Witness for C1 at a concrete aborting first root followed by a
second root. -/
theorem claim_C1_witness :
    main_fn
        [⟨"/a", RootSpec.ok (FSObj.unknown 3 9)⟩,
         ⟨"/b", RootSpec.ok (FSObj.file 0 10 4 1 2)⟩] true
      = ⟨(walkObj (FSObj.unknown 3 9).dev true "/a" (FSObj.unknown 3 9)
            ⟨[], [], false⟩).1.output,
         (walkObj (FSObj.unknown 3 9).dev true "/a" (FSObj.unknown 3 9)
            ⟨[], [], false⟩).1.diags, 1⟩ :=
  claim_C1 true "/a" (FSObj.unknown 3 9)
    [⟨"/b", RootSpec.ok (FSObj.file 0 10 4 1 2)⟩] (by decide)

/-- C10: when nftw fails for a root at the operating-system level (-1),
`main` reports the error naming the root's path, sets the failure flag,
and goes on to the remaining roots; only a visitor-signalled abort
(walk returning 1) makes the loop stop early — any other walk result
continues with the remaining roots. -/
theorem claim_C10 :
    (∀ (e : Bool) (p : String) (rest : List Root) (s : WalkState),
      runRoots e (⟨p, RootSpec.bad⟩ :: rest) s =
        runRoots e rest
          { s with diags := s.diags ++ ["An error occured traversing " ++ p],
                   errSet := true }) ∧
    (∀ (e : Bool) (p : String) (t : FSObj) (rest : List Root) (s : WalkState),
      (walkObj t.dev e p t s).2 ≠ 1 →
        runRoots e (⟨p, RootSpec.ok t⟩ :: rest) s =
          runRoots e rest (walkObj t.dev e p t s).1) := by
  constructor
  · intro e p rest s
    simp only [runRoots]
  · intro e p t rest s h
    simp only [runRoots]
    rw [if_neg h]

/-- Witness for C10: a failed root is followed by continuing (empty)
iteration, and a successfully walked root likewise continues. -/
theorem claim_C10_witness :
    runRoots true [⟨"/x", RootSpec.bad⟩] ⟨[], [], false⟩ =
        runRoots true []
          ⟨[], [] ++ ["An error occured traversing /x"], true⟩ ∧
      runRoots true [⟨"/y", RootSpec.ok (FSObj.file 0 8 4 1 2)⟩]
          ⟨[], [], false⟩
        = runRoots true []
            (walkObj (FSObj.file 0 8 4 1 2).dev true "/y"
              (FSObj.file 0 8 4 1 2) ⟨[], [], false⟩).1 :=
  ⟨claim_C10.1 true "/x" [] ⟨[], [], false⟩,
   claim_C10.2 true "/y" (FSObj.file 0 8 4 1 2) [] ⟨[], [], false⟩
     (by decide)⟩

end Makofind
